import Mathlib

/-!
# gramarr: the Sonarr client (`sonarr/client.go`)

A shallow embedding of `NewClient`, `createApiURL`, `SearchTVShows` and `AddTVShow`.

* Go strings are Lean `String`s; the byte-level library routines used by the
  client (`strings.TrimPrefix`, `regexp.MatchString` for the one pattern of the
  file, `url.URL.String`) are written over the character list of the string.
* The remote service is a parameter: the result of the catalog fetch and the
  answer of the remote to a write request are inputs of `AddTVShow`, and the
  requests the call sends are part of its outcome.
* A run-time panic of the Go program is the distinguished outcome `GoResult.crash`.
-/

namespace Sonarr

/-! ## Data model -/

/-- Modelled from the spec: the `TVShowSeason` type declaration is not among the
sources. A season is a season number and a monitored flag. A `*TVShowSeason` of the
source is modelled by the record it points to. -/
structure TVShowSeason where
  SeasonNumber : Int
  Monitored : Bool
  deriving DecidableEq, Repr

/-- Modelled from the spec: the `TVShow` type declaration is not among the sources.
The fields are the ones `AddTVShow` reads (`Title`, `TitleSlug`, `Images`, `TVDBID`,
`Year`, `Seasons`) and the internal identifier the spec names. -/
structure TVShow where
  ID : Int
  Title : String
  TitleSlug : String
  Year : Int
  TVDBID : Int
  Images : List String
  Seasons : List TVShowSeason
  deriving DecidableEq, Repr

/-- Modelled from the spec: the `AddTVShowOptions` type declaration is not among the
sources; `AddTVShow` sets its one field. -/
structure AddTVShowOptions where
  SearchForMissingEpisodes : Bool
  deriving DecidableEq, Repr

/-- Modelled from the spec: the `AddTVShowRequest` type declaration is not among the
sources; the fields are the ones the composite literal of `AddTVShow` fills in. -/
structure AddTVShowRequest where
  Title : String
  TitleSlug : String
  Images : List String
  TVDBID : Int
  RootFolderPath : String
  Monitored : Bool
  Year : Int
  Seasons : List TVShowSeason
  QualityProfileID : Int
  AddOptions : AddTVShowOptions
  SeasonFolder : Bool
  deriving DecidableEq, Repr

/-- Modelled from the spec: the `Config` type declaration is not among the sources.
The fields are the ones `NewClient` and `createApiURL` read. -/
structure Config where
  Hostname : String
  Port : Int
  SSL : Bool
  URLBase : String
  APIKey : String
  Username : String
  Password : String
  MaxResults : Int
  deriving DecidableEq, Repr

/-- Outcome of a Go call: a value, a returned `error`, or a run-time panic. -/
inductive GoResult (α : Type) where
  | ok (a : α)
  | error (msg : String)
  | crash
  deriving DecidableEq, Repr

/-- A write request sent to the `series` endpoint. -/
inductive WriteRequest where
  | put (body : TVShow)
  | post (body : AddTVShowRequest)
  deriving DecidableEq, Repr

/-! ## Library routines used by the client -/

/-- Go `strings.HasPrefix`: `s` begins with `pre`. -/
def HasPrefix (s pre : String) : Bool :=
  pre.data.isPrefixOf s.data

/-- Go `strings.TrimPrefix`: `s` without the leading `pre`, or `s` itself when it
does not start with `pre`. -/
def TrimPrefix (s pre : String) : String :=
  if HasPrefix s pre then String.mk (s.data.drop pre.data.length) else s

/-- The character class `[a-z0-9]` of `apiRgx`. -/
def isKeyChar (c : Char) : Bool :=
  (97 ≤ c.toNat && c.toNat ≤ 122) || (48 ≤ c.toNat && c.toNat ≤ 57)

/-- A match of `[a-z0-9]{32}` that starts at the head of `cs`. -/
def matchHere (cs : List Char) : Bool :=
  decide (32 ≤ cs.length) && (cs.take 32).all isKeyChar

/-- The search of `regexp.MatchString` for the pattern of `apiRgx`, which carries no
anchor: a match may start at any position. -/
def matchAnywhere : List Char → Bool
  | [] => false
  | c :: cs => matchHere (c :: cs) || matchAnywhere cs

/-- The value of `apiRgx.MatchString(key)` for
`apiRgx = regexp.MustCompile("[a-z0-9]{32}")` (lines 12-14). -/
def apiRgxMatchString (key : String) : Bool :=
  matchAnywhere key.data

/-- Go `fmt.Sprintf("%d", n)`. -/
def formatInt : Int → String
  | Int.ofNat n => String.mk (Nat.toDigits 10 n)
  | Int.negSucc n => String.mk ('-' :: Nat.toDigits 10 (n + 1))

/-- The two escaping modes of `net/url` that `URL.String` applies to the host and to
the path. -/
inductive encoding where
  | encodePath
  | encodeHost
  deriving DecidableEq, Repr

/-- Go `net/url.shouldEscape` on an ASCII character, for the two modes above. The
characters 39 and 34 are the single and the double quote. -/
def shouldEscape (c : Char) (mode : encoding) : Bool :=
  if (97 ≤ c.toNat && c.toNat ≤ 122) || (65 ≤ c.toNat && c.toNat ≤ 90)
      || (48 ≤ c.toNat && c.toNat ≤ 57) then false
  else if mode = encoding.encodeHost
      && ['!', '$', '&', Char.ofNat 39, '(', ')', '*', '+', ',', ';', '=', ':', '[', ']',
          '<', '>', Char.ofNat 34].contains c then false
  else if ['-', '_', '.', '~'].contains c then false
  else if ['$', '&', '+', ',', '/', ':', ';', '=', '?', '@'].contains c then
    match mode with
    | encoding.encodePath => c == '?'
    | encoding.encodeHost => true
  else true

/-- The table `upperhex` of `net/url`. -/
def upperhex (n : Nat) : Char :=
  ("0123456789ABCDEF".data).getD n '0'

/-- One byte written as `%XX`. -/
def escapeByte (b : UInt8) : List Char :=
  ['%', upperhex (b.toNat / 16), upperhex (b.toNat % 16)]

/-- What `net/url.escape` writes for the bytes of one character: an ASCII character
that needs no escaping is copied, every other byte of the UTF-8 encoding is written
as `%XX` (a byte above 127 always is). -/
def escapeChar (mode : encoding) (c : Char) : List Char :=
  if c.toNat < 128 ∧ shouldEscape c mode = false then [c]
  else (String.utf8EncodeChar c).flatMap escapeByte

/-- Go `net/url.escape` for the two modes above. -/
def escape (s : String) (mode : encoding) : String :=
  String.mk (s.data.flatMap (escapeChar mode))

/-- The fields of `net/url.URL` that `createApiURL` sets; the others keep their zero
value. -/
structure URL where
  Scheme : String
  Host : String
  Path : String
  deriving DecidableEq, Repr

/-- Go `(*URL).EscapedPath` with an empty `RawPath`. -/
def EscapedPath (u : URL) : String :=
  if u.Path = "*" then "*" else escape u.Path encoding.encodePath

/-- Go `(*URL).String` for a URL whose `Opaque`, `User`, `RawQuery`, `Fragment` are
empty and whose `OmitHost`, `ForceQuery` are false. -/
def urlString (u : URL) : String :=
  let buf := if u.Scheme ≠ "" then u.Scheme ++ ":" else ""
  let buf :=
    if u.Scheme ≠ "" ∨ u.Host ≠ "" then
      let buf := if u.Host ≠ "" ∨ u.Path ≠ "" then buf ++ "//" else buf
      if u.Host ≠ "" then buf ++ escape u.Host encoding.encodeHost else buf
    else buf
  let path := EscapedPath u
  let buf := if path ≠ "" ∧ path.data.head? ≠ some '/' ∧ u.Host ≠ "" then buf ++ "/" else buf
  let buf :=
    if buf = "" ∧ (path.data.takeWhile (fun c => c ≠ '/')).contains ':' then buf ++ "./"
    else buf
  buf ++ path

/-! ## NewClient and createApiURL (client.go, lines 16-77) -/

/-- The hostname `createApiURL` works with after lines 51-52. -/
def strippedHostname (c : Config) : String :=
  TrimPrefix (TrimPrefix c.Hostname "http://") "https://"

/-- The function `createApiURL`; the line printed to standard output is not modelled. -/
def createApiURL (c : Config) : String :=
  let hostname := strippedHostname c
  let urlBase := TrimPrefix c.URLBase "/"
  let scheme := if c.SSL then "https" else "http"
  let host := if c.Port = 80 then hostname else hostname ++ ":" ++ formatInt c.Port
  let path := if urlBase ≠ "" then urlBase ++ "/api" else "/api"
  urlString { Scheme := scheme, Host := host, Path := path }

/-- The settings `NewClient` gives the resty client (lines 27-33 and 45). -/
structure RestyClient where
  HostURL : String
  Header : List (String × String)
  QueryParam : List (String × String)
  BasicAuth : Option (String × String)
  RedirectLimit : Nat
  deriving DecidableEq, Repr

/-- The `Client` struct (lines 79-86). -/
structure Client where
  apiKey : String
  username : String
  password : String
  baseURL : String
  maxResults : Int
  client : RestyClient
  deriving DecidableEq, Repr

/-- The function `NewClient`: the two guards, then the client built around the base URL. -/
def NewClient (c : Config) : GoResult Client :=
  if c.Hostname = "" then GoResult.error "hostname is empty"
  else if apiRgxMatchString c.APIKey = false then
    GoResult.error ("api key is invalid format: " ++ c.APIKey)
  else
    let baseURL := createApiURL c
    GoResult.ok
      { apiKey := c.APIKey
        maxResults := c.MaxResults
        username := c.Username
        password := c.Password
        baseURL := baseURL
        client :=
          { HostURL := baseURL
            Header := [("Accept", "application/json")]
            QueryParam := [("apikey", c.APIKey)]
            BasicAuth :=
              if c.Username ≠ "" ∧ c.Password ≠ "" then some (c.Username, c.Password)
              else none
            RedirectLimit := 15 } }

/-! ## SearchTVShows (client.go, lines 88-99) -/

/-- The method `SearchTVShows`; `remote` is what the GET of `series/lookup` returns. The slice
expression `tvShows[:c.maxResults]` panics when `c.maxResults` is negative. -/
def SearchTVShows (c : Client) (remote : GoResult (List TVShow)) : GoResult (List TVShow) :=
  match remote with
  | GoResult.crash => GoResult.crash
  | GoResult.error e => GoResult.error e
  | GoResult.ok tvShows =>
      if (tvShows.length : Int) > c.maxResults then
        if c.maxResults < 0 then GoResult.crash
        else GoResult.ok (tvShows.take c.maxResults.toNat)
      else GoResult.ok tvShows

/-! ## AddTVShow (client.go, lines 136-205) -/

/-- The inner loop `for j := 0; j < len(s); j++` of the merge, run on one season of
the show: every requested season with the same number sets the flag. -/
def mergeSeason (s : List TVShowSeason) (season : TVShowSeason) : TVShowSeason :=
  s.foldl
    (fun cur sj =>
      if sj.SeasonNumber ≠ cur.SeasonNumber then cur else { cur with Monitored := true })
    season

/-- The outer loop `for i := 0; i < len(seasons); i++` of the merge (lines 155-162
and 172-179): season `i` is rewritten in place. -/
def mergeSeasons (seasons s : List TVShowSeason) : List TVShowSeason :=
  seasons.map (mergeSeason s)

/-- The loop of lines 167-169: clear the monitored flag of every season. -/
def clearMonitored (seasons : List TVShowSeason) : List TVShowSeason :=
  seasons.map (fun season => { season with Monitored := false })

/-- The loop of lines 143-149: the first show of the catalog whose `TVDBID` is the
candidate's, `none` for the nil pointer. -/
def findMatch : List TVShow → TVShow → Option TVShow
  | [], _ => none
  | show_ :: rest, m => if show_.TVDBID = m.TVDBID then some show_ else findMatch rest m

/-- The composite literal of lines 181-193, `seasons` being `m.Seasons` after the two
loops of the create path. -/
def buildRequest (m : TVShow) (seasons : List TVShowSeason) (qualityProfile : Int)
    (path : String) : AddTVShowRequest :=
  { Title := m.Title
    TitleSlug := m.TitleSlug
    Images := m.Images
    TVDBID := m.TVDBID
    RootFolderPath := path
    Monitored := true
    Year := m.Year
    Seasons := seasons
    QualityProfileID := qualityProfile
    AddOptions := { SearchForMissingEpisodes := true }
    SeasonFolder := true }

/-- The write request `AddTVShow` sends once `shows` holds the catalog. -/
def reconcile (shows : List TVShow) (m : TVShow) (s : List TVShowSeason)
    (qualityProfile : Int) (path : String) : WriteRequest :=
  match findMatch shows m with
  | some found => WriteRequest.put { found with Seasons := mergeSeasons found.Seasons s }
  | none =>
      WriteRequest.post
        (buildRequest m (mergeSeasons (clearMonitored m.Seasons) s) qualityProfile path)

/-- What a call of `AddTVShow` does: the write requests it sent, in order, and what
it returned. -/
structure AddOutcome where
  writes : List WriteRequest
  result : GoResult TVShow
  deriving DecidableEq, Repr

/-- The method `AddTVShow`. `fetch` is what `c.GetTVShows()` returns (line 139) and `remote`
what the transport returns for a write. The error of the fetch is assigned to `err`
and not looked at before the write assigns `err` again; on a failed fetch `shows` is
the nil slice. -/
def AddTVShow (fetch : GoResult (List TVShow)) (remote : WriteRequest → GoResult TVShow)
    (m : TVShow) (s : List TVShowSeason) (qualityProfile : Int) (path : String) :
    AddOutcome :=
  match fetch with
  | GoResult.crash => { writes := [], result := GoResult.crash }
  | GoResult.error _ =>
      let req := reconcile [] m s qualityProfile path
      { writes := [req], result := remote req }
  | GoResult.ok shows =>
      let req := reconcile shows m s qualityProfile path
      { writes := [req], result := remote req }

/-! ## The wording of the spec, for comparison with the code -/

/-- The key format as the spec words it, `^[a-z0-9]{32}$`: exactly 32 characters, each
a lowercase letter or a digit. -/
def matchesAnchoredKeyFormat (key : String) : Bool :=
  decide (key.data.length = 32) && key.data.all isKeyChar

/-- No character of `s` needs escaping in the given mode: `net/url.escape` copies it. -/
def needsNoEscaping (s : String) (mode : encoding) : Bool :=
  s.data.all (fun ch => decide (ch.toNat < 128) && !shouldEscape ch mode)

/-! ## Example values -/

/-- A well-formed key: 32 characters of `[a-z0-9]`. -/
def goodKey : String := "0123456789abcdef0123456789abcdef"

/-- A configuration `NewClient` accepts. -/
def exampleConfig : Config :=
  { Hostname := "example.com", Port := 8989, SSL := true, URLBase := "sonarr",
    APIKey := goodKey, Username := "", Password := "", MaxResults := 5 }


/-- The existing show of the update example of the spec: seasons 1 and 2, neither
monitored. -/
def updateExampleShow : TVShow :=
  { ID := 7, Title := "Show", TitleSlug := "show", Year := 2020, TVDBID := 121361,
    Images := [],
    Seasons := [{ SeasonNumber := 1, Monitored := false },
                { SeasonNumber := 2, Monitored := false }] }

/-- The candidate of the create example of the spec: seasons 1 (not monitored) and 2
(monitored). -/
def createExampleShow : TVShow :=
  { ID := 0, Title := "Show", TitleSlug := "show", Year := 2020, TVDBID := 121361,
    Images := [],
    Seasons := [{ SeasonNumber := 1, Monitored := false },
                { SeasonNumber := 2, Monitored := true }] }

/-- A remote that answers every write with the show it stored. -/
def echoRemote : WriteRequest → GoResult TVShow
  | WriteRequest.put body => GoResult.ok body
  | WriteRequest.post body =>
      GoResult.ok
        { ID := 1, Title := body.Title, TitleSlug := body.TitleSlug, Year := body.Year,
          TVDBID := body.TVDBID, Images := body.Images, Seasons := body.Seasons }

/-! ## The season merge -/

theorem mergeSeason_eq (s : List TVShowSeason) (x : TVShowSeason) :
    mergeSeason s x =
      { SeasonNumber := x.SeasonNumber
        Monitored := x.Monitored || s.any (fun r => r.SeasonNumber == x.SeasonNumber) } := by
  unfold mergeSeason
  induction s generalizing x with
  | nil => simp
  | cons r rest ih =>
    simp only [List.foldl_cons]
    by_cases h : r.SeasonNumber = x.SeasonNumber
    · rw [if_neg (not_not.mpr h), ih]
      simp [h]
    · rw [if_pos h, ih, List.any_cons, beq_false_of_ne h, Bool.false_or]

theorem mergeSeason_number (s : List TVShowSeason) (x : TVShowSeason) :
    (mergeSeason s x).SeasonNumber = x.SeasonNumber := by
  rw [mergeSeason_eq]

theorem mergeSeason_monitored (s : List TVShowSeason) (x : TVShowSeason) :
    (mergeSeason s x).Monitored = true ↔
      (x.Monitored = true ∨ ∃ r ∈ s, r.SeasonNumber = x.SeasonNumber) := by
  rw [mergeSeason_eq]
  simp

theorem mergeSeasons_length (seasons s : List TVShowSeason) :
    (mergeSeasons seasons s).length = seasons.length := by
  simp [mergeSeasons]

theorem mergeSeasons_numbers (seasons s : List TVShowSeason) :
    (mergeSeasons seasons s).map (fun x => x.SeasonNumber)
      = seasons.map (fun x => x.SeasonNumber) := by
  simp [mergeSeasons, Function.comp_def, mergeSeason_number]

theorem mergeSeasons_getElem (seasons s : List TVShowSeason) (i : Nat)
    (h : i < (mergeSeasons seasons s).length) (h2 : i < seasons.length) :
    (mergeSeasons seasons s)[i] = mergeSeason s seasons[i] := by
  simp [mergeSeasons]

theorem clearMonitored_length (seasons : List TVShowSeason) :
    (clearMonitored seasons).length = seasons.length := by
  simp [clearMonitored]

theorem clearMonitored_getElem (seasons : List TVShowSeason) (i : Nat)
    (h : i < (clearMonitored seasons).length) (h2 : i < seasons.length) :
    (clearMonitored seasons)[i]
      = { SeasonNumber := seasons[i].SeasonNumber, Monitored := false } := by
  simp [clearMonitored]

/-! ## The catalog search -/

theorem findMatch_none_iff (shows : List TVShow) (m : TVShow) :
    findMatch shows m = none ↔ ∀ e ∈ shows, e.TVDBID ≠ m.TVDBID := by
  induction shows with
  | nil => simp [findMatch]
  | cons x rest ih =>
    by_cases h : x.TVDBID = m.TVDBID
    · simp [findMatch, h]
    · simp [findMatch, h, ih]

theorem findMatch_some_split (shows : List TVShow) (m found : TVShow)
    (h : findMatch shows m = some found) :
    ∃ before after, shows = before ++ found :: after
      ∧ (∀ e ∈ before, e.TVDBID ≠ m.TVDBID) ∧ found.TVDBID = m.TVDBID := by
  induction shows with
  | nil => simp [findMatch] at h
  | cons x rest ih =>
    by_cases hx : x.TVDBID = m.TVDBID
    · simp only [findMatch, hx, if_true, Option.some.injEq] at h
      subst h
      exact ⟨[], rest, by simp, by simp, hx⟩
    · simp only [findMatch, hx, if_false] at h
      obtain ⟨before, after, hsplit, hbefore, hfound⟩ := ih h
      refine ⟨x :: before, after, by simp [hsplit], ?_, hfound⟩
      intro e he
      rcases List.mem_cons.mp he with rfl | he
      · exact hx
      · exact hbefore e he

theorem findMatch_isSome_iff (shows : List TVShow) (m : TVShow) :
    (∃ found, findMatch shows m = some found) ↔ ∃ e ∈ shows, e.TVDBID = m.TVDBID := by
  constructor
  · rintro ⟨found, h⟩
    obtain ⟨before, after, hsplit, _, hfound⟩ := findMatch_some_split shows m found h
    exact ⟨found, by simp [hsplit], hfound⟩
  · rintro ⟨e, he, heq⟩
    cases hf : findMatch shows m with
    | none => exact absurd heq ((findMatch_none_iff shows m).mp hf e he)
    | some found => exact ⟨found, rfl⟩

theorem findMatch_insert (before after : List TVShow) (m e : TVShow)
    (hno : ∀ x ∈ before, x.TVDBID ≠ m.TVDBID) (he : e.TVDBID = m.TVDBID) :
    findMatch (before ++ e :: after) m = some e := by
  induction before with
  | nil => simp [findMatch, he]
  | cons x rest ih =>
    have hx : x.TVDBID ≠ m.TVDBID := hno x (by simp)
    simp only [List.cons_append, findMatch, hx, if_false]
    exact ih (fun y hy => hno y (by simp [hy]))

theorem findMatch_congr (shows shows2 : List TVShow) (m m2 : TVShow)
    (hs : shows2.map (fun e => e.TVDBID) = shows.map (fun e => e.TVDBID))
    (hm : m2.TVDBID = m.TVDBID) :
    (findMatch shows2 m2).isSome = (findMatch shows m).isSome := by
  induction shows generalizing shows2 with
  | nil =>
    have : shows2 = [] := by simpa using hs
    subst this
    simp [findMatch]
  | cons x rest ih =>
    cases shows2 with
    | nil => simp at hs
    | cons y rest2 =>
      simp only [List.map_cons, List.cons.injEq] at hs
      obtain ⟨hy, hrest⟩ := hs
      by_cases hx : x.TVDBID = m.TVDBID
      · simp [findMatch, hx, hy, hm]
      · simp only [findMatch, hx, hy, hm, if_false]
        exact ih rest2 hrest

/-! ## AddTVShow: the request that is sent -/

theorem AddTVShow_ok_writes (shows : List TVShow) (remote : WriteRequest → GoResult TVShow)
    (m : TVShow) (s : List TVShowSeason) (qualityProfile : Int) (path : String) :
    (AddTVShow (GoResult.ok shows) remote m s qualityProfile path).writes
      = [reconcile shows m s qualityProfile path] := rfl

theorem reconcile_of_match (shows : List TVShow) (m found : TVShow) (s : List TVShowSeason)
    (qualityProfile : Int) (path : String) (h : findMatch shows m = some found) :
    reconcile shows m s qualityProfile path
      = WriteRequest.put { found with Seasons := mergeSeasons found.Seasons s } := by
  simp [reconcile, h]

theorem reconcile_of_no_match (shows : List TVShow) (m : TVShow) (s : List TVShowSeason)
    (qualityProfile : Int) (path : String) (h : findMatch shows m = none) :
    reconcile shows m s qualityProfile path
      = WriteRequest.post
          (buildRequest m (mergeSeasons (clearMonitored m.Seasons) s) qualityProfile path) := by
  simp [reconcile, h]

/-- C1. Update path of `AddTVShow`: when the fetched catalog holds an entry with the
candidate's TVDBID, the call sends one PUT whose body is the matched entry with a
season list of the same length, the same season numbers in the same order, and
season `i` monitored exactly when it was monitored in the matched entry or its number
occurs in the requested list. -/
theorem C1_update_path_seasons (shows : List TVShow) (remote : WriteRequest → GoResult TVShow)
    (m : TVShow) (s : List TVShowSeason) (qualityProfile : Int) (path : String)
    (hex : ∃ e ∈ shows, e.TVDBID = m.TVDBID) :
    ∃ found body, findMatch shows m = some found ∧ found ∈ shows
      ∧ found.TVDBID = m.TVDBID
      ∧ (AddTVShow (GoResult.ok shows) remote m s qualityProfile path).writes
          = [WriteRequest.put body]
      ∧ body.Seasons.length = found.Seasons.length
      ∧ body.Seasons.map (fun x => x.SeasonNumber)
          = found.Seasons.map (fun x => x.SeasonNumber)
      ∧ ∀ (i : Nat) (hb : i < body.Seasons.length) (hf : i < found.Seasons.length),
          (body.Seasons[i].Monitored = true ↔
            (found.Seasons[i].Monitored = true
              ∨ ∃ r ∈ s, r.SeasonNumber = found.Seasons[i].SeasonNumber)) := by
  obtain ⟨found, hfound⟩ := (findMatch_isSome_iff shows m).mpr hex
  obtain ⟨before, after, hsplit, _, hid⟩ := findMatch_some_split shows m found hfound
  refine ⟨found, { found with Seasons := mergeSeasons found.Seasons s }, hfound,
    by simp [hsplit], hid, ?_, mergeSeasons_length _ _, mergeSeasons_numbers _ _, ?_⟩
  · rw [AddTVShow_ok_writes, reconcile_of_match shows m found s qualityProfile path hfound]
  · intro i hb hf
    show (mergeSeasons found.Seasons s)[i].Monitored = true ↔ _
    rw [mergeSeasons_getElem found.Seasons s i hb hf]
    exact mergeSeason_monitored s _

/-- C1, at the example of the spec: seasons `[{1,false},{2,false}]` with requested
`[{2}]` give the PUT body seasons `[{1,false},{2,true}]`. -/
theorem C1_update_path_seasons_witness :
    (∃ e ∈ [updateExampleShow], e.TVDBID = createExampleShow.TVDBID)
      ∧ (AddTVShow (GoResult.ok [updateExampleShow]) echoRemote createExampleShow
            [{ SeasonNumber := 2, Monitored := false }] 1 "/tv").writes
          = [WriteRequest.put { updateExampleShow with
              Seasons := [{ SeasonNumber := 1, Monitored := false },
                          { SeasonNumber := 2, Monitored := true }] }]
      ∧ ∃ found body, findMatch [updateExampleShow] createExampleShow = some found
          ∧ found ∈ [updateExampleShow]
          ∧ found.TVDBID = createExampleShow.TVDBID
          ∧ (AddTVShow (GoResult.ok [updateExampleShow]) echoRemote createExampleShow
                [{ SeasonNumber := 2, Monitored := false }] 1 "/tv").writes
              = [WriteRequest.put body]
          ∧ body.Seasons.length = found.Seasons.length
          ∧ body.Seasons.map (fun x => x.SeasonNumber)
              = found.Seasons.map (fun x => x.SeasonNumber)
          ∧ ∀ (i : Nat) (hb : i < body.Seasons.length) (hf : i < found.Seasons.length),
              (body.Seasons[i].Monitored = true ↔
                (found.Seasons[i].Monitored = true
                  ∨ ∃ r ∈ [({ SeasonNumber := 2, Monitored := false } : TVShowSeason)],
                      r.SeasonNumber = found.Seasons[i].SeasonNumber)) :=
  ⟨⟨updateExampleShow, by simp, by decide⟩, by decide,
    C1_update_path_seasons [updateExampleShow] echoRemote createExampleShow
      [{ SeasonNumber := 2, Monitored := false }] 1 "/tv"
      ⟨updateExampleShow, by simp, by decide⟩⟩

/-- C2. Create path of `AddTVShow`: when no entry of the fetched catalog has the
candidate's TVDBID, the call sends one POST whose season list has the length, the
season numbers and the order of the candidate's, season `i` monitored exactly when
its number occurs in the requested list (whatever flag the candidate carried), and
whose show-level monitored flag is true. -/
theorem C2_create_path_seasons (shows : List TVShow) (remote : WriteRequest → GoResult TVShow)
    (m : TVShow) (s : List TVShowSeason) (qualityProfile : Int) (path : String)
    (hno : ∀ e ∈ shows, e.TVDBID ≠ m.TVDBID) :
    ∃ body, (AddTVShow (GoResult.ok shows) remote m s qualityProfile path).writes
          = [WriteRequest.post body]
      ∧ body.Seasons.length = m.Seasons.length
      ∧ body.Seasons.map (fun x => x.SeasonNumber) = m.Seasons.map (fun x => x.SeasonNumber)
      ∧ (∀ (i : Nat) (hb : i < body.Seasons.length) (hm : i < m.Seasons.length),
          (body.Seasons[i].Monitored = true ↔
            ∃ r ∈ s, r.SeasonNumber = m.Seasons[i].SeasonNumber))
      ∧ (s = [] → ∀ x ∈ body.Seasons, x.Monitored = false)
      ∧ body.Monitored = true := by
  have hnone : findMatch shows m = none := (findMatch_none_iff shows m).mpr hno
  have hmon : ∀ (i : Nat)
      (hb : i < (mergeSeasons (clearMonitored m.Seasons) s).length)
      (hm : i < m.Seasons.length),
      ((mergeSeasons (clearMonitored m.Seasons) s)[i].Monitored = true ↔
        ∃ r ∈ s, r.SeasonNumber = m.Seasons[i].SeasonNumber) := by
    intro i hb hm
    have hc : i < (clearMonitored m.Seasons).length := by
      rw [clearMonitored_length]; exact hm
    rw [mergeSeasons_getElem (clearMonitored m.Seasons) s i hb hc, mergeSeason_monitored,
      clearMonitored_getElem m.Seasons i hc hm]
    simp
  refine ⟨buildRequest m (mergeSeasons (clearMonitored m.Seasons) s) qualityProfile path,
    ?_, ?_, ?_, hmon, ?_, rfl⟩
  · rw [AddTVShow_ok_writes, reconcile_of_no_match shows m s qualityProfile path hnone]
  · show (mergeSeasons (clearMonitored m.Seasons) s).length = _
    rw [mergeSeasons_length, clearMonitored_length]
  · show (mergeSeasons (clearMonitored m.Seasons) s).map _ = _
    rw [mergeSeasons_numbers]
    simp [clearMonitored, Function.comp_def]
  · intro hs x hx
    subst hs
    change x ∈ mergeSeasons (clearMonitored m.Seasons) [] at hx
    simp only [mergeSeasons, clearMonitored, List.map_map, List.mem_map] at hx
    obtain ⟨y, _, rfl⟩ := hx
    simp [mergeSeason]

/-- C2, at the example of the spec: candidate seasons `[{1,false},{2,true}]` with
requested `[{1}]` give the POST body seasons `[{1,true},{2,false}]` and a show-level
monitored flag that is true. -/
theorem C2_create_path_seasons_witness :
    (∀ e ∈ ([] : List TVShow), e.TVDBID ≠ createExampleShow.TVDBID)
      ∧ (AddTVShow (GoResult.ok []) echoRemote createExampleShow
            [{ SeasonNumber := 1, Monitored := false }] 1 "/tv").writes
          = [WriteRequest.post
              (buildRequest createExampleShow
                [{ SeasonNumber := 1, Monitored := true },
                 { SeasonNumber := 2, Monitored := false }] 1 "/tv")]
      ∧ ∃ body, (AddTVShow (GoResult.ok []) echoRemote createExampleShow
            [{ SeasonNumber := 1, Monitored := false }] 1 "/tv").writes
          = [WriteRequest.post body]
        ∧ body.Seasons.length = createExampleShow.Seasons.length
        ∧ body.Seasons.map (fun x => x.SeasonNumber)
            = createExampleShow.Seasons.map (fun x => x.SeasonNumber)
        ∧ (∀ (i : Nat) (hb : i < body.Seasons.length)
            (hm : i < createExampleShow.Seasons.length),
            (body.Seasons[i].Monitored = true ↔
              ∃ r ∈ [({ SeasonNumber := 1, Monitored := false } : TVShowSeason)],
                r.SeasonNumber = createExampleShow.Seasons[i].SeasonNumber))
        ∧ (([({ SeasonNumber := 1, Monitored := false } : TVShowSeason)] = [])
            → ∀ x ∈ body.Seasons, x.Monitored = false)
        ∧ body.Monitored = true :=
  ⟨by simp, by decide,
    C2_create_path_seasons [] echoRemote createExampleShow
      [{ SeasonNumber := 1, Monitored := false }] 1 "/tv" (by simp)⟩

/-- C3, the code at a failed fetch: whatever error `GetTVShows` returned, `AddTVShow`
still sends the POST of the create path (the catalog being the nil slice) and
returns what the remote answered to that POST, not the error of the fetch. -/
theorem C3_failed_fetch_still_posts (msg : String) (remote : WriteRequest → GoResult TVShow)
    (m : TVShow) (s : List TVShowSeason) (qualityProfile : Int) (path : String) :
    (AddTVShow (GoResult.error msg) remote m s qualityProfile path).writes
        = [WriteRequest.post
            (buildRequest m (mergeSeasons (clearMonitored m.Seasons) s) qualityProfile path)]
      ∧ (AddTVShow (GoResult.error msg) remote m s qualityProfile path).result
        = remote (WriteRequest.post
            (buildRequest m (mergeSeasons (clearMonitored m.Seasons) s) qualityProfile path))
      ∧ (AddTVShow (GoResult.error "connection refused") echoRemote createExampleShow
            [] 1 "/tv").writes ≠ []
      ∧ (AddTVShow (GoResult.error "connection refused") echoRemote createExampleShow
            [] 1 "/tv").result ≠ GoResult.error "connection refused" := by
  refine ⟨rfl, rfl, by decide, by decide⟩

/-- C5. `AddTVShow` sends a PUT exactly when some catalog entry has the candidate's
TVDBID, and a POST when none has; the decision depends on the TVDBIDs alone (two
calls whose catalogs list the same TVDBIDs in the same order and whose candidates
have the same TVDBID decide alike); the PUT body is the first entry with that TVDBID
in fetch order, its season list replaced by the merged one. -/
theorem C5_match_by_catalog_id (shows : List TVShow) (remote : WriteRequest → GoResult TVShow)
    (m : TVShow) (s : List TVShowSeason) (qualityProfile : Int) (path : String) :
    ((∃ e ∈ shows, e.TVDBID = m.TVDBID) ↔
        ∃ body, (AddTVShow (GoResult.ok shows) remote m s qualityProfile path).writes
          = [WriteRequest.put body])
      ∧ ((¬ ∃ e ∈ shows, e.TVDBID = m.TVDBID) ↔
        ∃ body, (AddTVShow (GoResult.ok shows) remote m s qualityProfile path).writes
          = [WriteRequest.post body])
      ∧ (∀ body, (AddTVShow (GoResult.ok shows) remote m s qualityProfile path).writes
            = [WriteRequest.put body] →
          ∃ before found after, shows = before ++ found :: after
            ∧ (∀ e ∈ before, e.TVDBID ≠ m.TVDBID) ∧ found.TVDBID = m.TVDBID
            ∧ body = { found with Seasons := mergeSeasons found.Seasons s })
      ∧ (∀ (shows2 : List TVShow) (remote2 : WriteRequest → GoResult TVShow) (m2 : TVShow)
          (s2 : List TVShowSeason) (qualityProfile2 : Int) (path2 : String),
          shows2.map (fun e => e.TVDBID) = shows.map (fun e => e.TVDBID) →
          m2.TVDBID = m.TVDBID →
          ((∃ body, (AddTVShow (GoResult.ok shows2) remote2 m2 s2 qualityProfile2 path2).writes
              = [WriteRequest.put body]) ↔
            ∃ body, (AddTVShow (GoResult.ok shows) remote m s qualityProfile path).writes
              = [WriteRequest.put body])) := by
  have key : ∀ (sh : List TVShow) (rm : WriteRequest → GoResult TVShow) (c : TVShow)
      (rq : List TVShowSeason) (qp : Int) (p : String),
      ((∃ body, (AddTVShow (GoResult.ok sh) rm c rq qp p).writes = [WriteRequest.put body])
        ↔ (findMatch sh c).isSome = true)
      ∧ ((∃ body, (AddTVShow (GoResult.ok sh) rm c rq qp p).writes = [WriteRequest.post body])
        ↔ (findMatch sh c).isSome = false) := by
    intro sh rm c rq qp p
    rw [AddTVShow_ok_writes]
    cases hf : findMatch sh c with
    | none => simp [reconcile_of_no_match sh c rq qp p hf]
    | some found => simp [reconcile_of_match sh c found rq qp p hf]
  have hsome : (findMatch shows m).isSome = true ↔ ∃ e ∈ shows, e.TVDBID = m.TVDBID := by
    rw [← findMatch_isSome_iff, Option.isSome_iff_exists]
  refine ⟨?_, ?_, ?_, ?_⟩
  · rw [(key shows remote m s qualityProfile path).1, hsome]
  · rw [(key shows remote m s qualityProfile path).2, ← hsome]
    simp
  · intro body hbody
    rw [AddTVShow_ok_writes] at hbody
    cases hf : findMatch shows m with
    | none =>
      rw [reconcile_of_no_match shows m s qualityProfile path hf] at hbody
      simp at hbody
    | some found =>
      rw [reconcile_of_match shows m found s qualityProfile path hf] at hbody
      obtain ⟨before, after, hsplit, hbefore, hid⟩ := findMatch_some_split shows m found hf
      refine ⟨before, found, after, hsplit, hbefore, hid, ?_⟩
      simpa using hbody.symm
  · intro shows2 remote2 m2 s2 qualityProfile2 path2 hs hm
    rw [(key shows2 remote2 m2 s2 qualityProfile2 path2).1,
      (key shows remote m s qualityProfile path).1, findMatch_congr shows shows2 m m2 hs hm]

/-- C9. Idempotence of `AddTVShow`: with a catalog holding no entry of the candidate's
TVDBID the first call sends a POST; once the remote holds an entry with that TVDBID
and the season list of the POST body, anywhere in an otherwise unchanged catalog, a
second call with the same requested seasons sends a PUT whose season list is the
season list of the first call's POST body. -/
theorem C9_second_call_updates_same_flags (shows : List TVShow)
    (remote remote2 : WriteRequest → GoResult TVShow) (m : TVShow) (s : List TVShowSeason)
    (qualityProfile : Int) (path : String)
    (hno : ∀ x ∈ shows, x.TVDBID ≠ m.TVDBID) :
    ∃ body1, (AddTVShow (GoResult.ok shows) remote m s qualityProfile path).writes
          = [WriteRequest.post body1]
      ∧ ∀ (before after : List TVShow) (e : TVShow), shows = before ++ after →
          e.TVDBID = body1.TVDBID → e.Seasons = body1.Seasons →
          ∃ body2, (AddTVShow (GoResult.ok (before ++ e :: after)) remote2 m s
                qualityProfile path).writes = [WriteRequest.put body2]
            ∧ body2.Seasons = body1.Seasons
            ∧ body2.TVDBID = body1.TVDBID := by
  have hnone : findMatch shows m = none := (findMatch_none_iff shows m).mpr hno
  refine ⟨buildRequest m (mergeSeasons (clearMonitored m.Seasons) s) qualityProfile path,
    ?_, ?_⟩
  · rw [AddTVShow_ok_writes, reconcile_of_no_match shows m s qualityProfile path hnone]
  · intro before after e hsplit hid hseasons
    have hid2 : e.TVDBID = m.TVDBID := hid
    have hseasons2 : e.Seasons = mergeSeasons (clearMonitored m.Seasons) s := hseasons
    have hbefore : ∀ x ∈ before, x.TVDBID ≠ m.TVDBID :=
      fun x hx => hno x (by simp [hsplit, hx])
    have hfind : findMatch (before ++ e :: after) m = some e :=
      findMatch_insert before after m e hbefore hid2
    refine ⟨{ e with Seasons := mergeSeasons e.Seasons s }, ?_, ?_, hid⟩
    · rw [AddTVShow_ok_writes,
        reconcile_of_match (before ++ e :: after) m e s qualityProfile path hfind]
    · show mergeSeasons e.Seasons s = mergeSeasons (clearMonitored m.Seasons) s
      rw [hseasons2]
      simp only [mergeSeasons, List.map_map]
      apply List.map_congr_left
      intro x _
      simp only [Function.comp_apply]
      rw [mergeSeason_eq s (mergeSeason s x), mergeSeason_eq s x]
      simp

/-- C9, at the create example of the spec: the first call posts seasons
`[{1,true},{2,false}]`, and with that entry stored the second call puts the same
season list. -/
theorem C9_second_call_updates_same_flags_witness :
    (∀ x ∈ ([] : List TVShow), x.TVDBID ≠ createExampleShow.TVDBID)
      ∧ (AddTVShow
            (GoResult.ok [{ updateExampleShow with
              Seasons := [{ SeasonNumber := 1, Monitored := true },
                          { SeasonNumber := 2, Monitored := false }] }])
            echoRemote createExampleShow [{ SeasonNumber := 1, Monitored := false }]
            1 "/tv").writes
          = [WriteRequest.put { updateExampleShow with
              Seasons := [{ SeasonNumber := 1, Monitored := true },
                          { SeasonNumber := 2, Monitored := false }] }]
      ∧ ∃ body1, (AddTVShow (GoResult.ok []) echoRemote createExampleShow
            [{ SeasonNumber := 1, Monitored := false }] 1 "/tv").writes
          = [WriteRequest.post body1]
        ∧ ∀ (before after : List TVShow) (e : TVShow), [] = before ++ after →
            e.TVDBID = body1.TVDBID → e.Seasons = body1.Seasons →
            ∃ body2, (AddTVShow (GoResult.ok (before ++ e :: after)) echoRemote
                  createExampleShow [{ SeasonNumber := 1, Monitored := false }]
                  1 "/tv").writes = [WriteRequest.put body2]
              ∧ body2.Seasons = body1.Seasons
              ∧ body2.TVDBID = body1.TVDBID :=
  ⟨by simp, by decide,
    C9_second_call_updates_same_flags [] echoRemote echoRemote createExampleShow
      [{ SeasonNumber := 1, Monitored := false }] 1 "/tv" (by simp)⟩

/-! ## NewClient -/

/-- C8. A configuration with the empty hostname is refused with the empty-hostname
error, whatever its other fields. -/
theorem C8_empty_hostname_rejected (c : Config) (h : c.Hostname = "") :
    NewClient c = GoResult.error "hostname is empty" := by
  simp [NewClient, h]

/-- C8, at a configuration with a well-formed key and at one with a malformed key. -/
theorem C8_empty_hostname_rejected_witness :
    ({ exampleConfig with Hostname := "" } : Config).Hostname = ""
      ∧ NewClient { exampleConfig with Hostname := "" } = GoResult.error "hostname is empty"
      ∧ NewClient { exampleConfig with Hostname := "", APIKey := "short" }
          = GoResult.error "hostname is empty" :=
  ⟨rfl, C8_empty_hostname_rejected { exampleConfig with Hostname := "" } rfl,
    C8_empty_hostname_rejected { exampleConfig with Hostname := "", APIKey := "short" } rfl⟩

/-- C4, the code at keys that do not have the anchored format: a key of 33
characters and a key with capitals and punctuation around a run of 32 characters of
`[a-z0-9]` are both accepted, a client being returned. -/
theorem C4_unanchored_pattern_accepts :
    matchesAnchoredKeyFormat (goodKey ++ "0") = false
      ∧ matchesAnchoredKeyFormat ("KEY=" ++ goodKey ++ "!") = false
      ∧ ({ exampleConfig with APIKey := goodKey ++ "0" } : Config).Hostname ≠ ""
      ∧ (∃ cl, NewClient { exampleConfig with APIKey := goodKey ++ "0" } = GoResult.ok cl)
      ∧ (∃ cl, NewClient { exampleConfig with APIKey := "KEY=" ++ goodKey ++ "!" }
          = GoResult.ok cl) := by
  refine ⟨by decide, by decide, by decide, ⟨_, rfl⟩, ⟨_, rfl⟩⟩

/-! ## SearchTVShows -/

/-- C7, the claim at a negative limit: with `MaxResults = -1` the client is built, the
list of one show has more entries than the limit, and the slice expression panics; no
list is returned. -/
theorem C7_negative_limit_panics :
    ∃ cl, NewClient { exampleConfig with MaxResults := -1 } = GoResult.ok cl
      ∧ cl.maxResults = -1
      ∧ (([updateExampleShow].length : Int) > cl.maxResults)
      ∧ SearchTVShows cl (GoResult.ok [updateExampleShow]) = GoResult.crash :=
  ⟨_, rfl, rfl, by decide, rfl⟩

/-- C7, amended. For a limit that is not negative: when the remote list has more
entries than the limit, `SearchTVShows` returns its first `maxResults` entries, in
remote order, so a list of length `maxResults`; otherwise it returns the whole list. -/
theorem C7_search_truncates (c : Client) (tvShows : List TVShow) (h : 0 ≤ c.maxResults) :
    ((tvShows.length : Int) > c.maxResults →
        ∃ r, SearchTVShows c (GoResult.ok tvShows) = GoResult.ok r
          ∧ r = tvShows.take c.maxResults.toNat
          ∧ (r.length : Int) = c.maxResults
          ∧ r <+: tvShows)
      ∧ (¬ (tvShows.length : Int) > c.maxResults →
        SearchTVShows c (GoResult.ok tvShows) = GoResult.ok tvShows) := by
  constructor
  · intro hgt
    refine ⟨tvShows.take c.maxResults.toNat, ?_, rfl, ?_, List.take_prefix _ _⟩
    · simp only [SearchTVShows, hgt, if_true, not_lt.mpr h, if_false]
    · rw [List.length_take]
      omega
  · intro hle
    simp only [SearchTVShows, hle, if_false]

/-- C7 amended, at limit 1 with a remote list of two shows. -/
theorem C7_search_truncates_witness :
    (0 : Int) ≤ (1 : Int)
      ∧ SearchTVShows
          { apiKey := goodKey, username := "", password := "", baseURL := "", maxResults := 1,
            client := { HostURL := "", Header := [], QueryParam := [], BasicAuth := none,
                        RedirectLimit := 15 } }
          (GoResult.ok [updateExampleShow, createExampleShow])
        = GoResult.ok [updateExampleShow]
      ∧ (((([updateExampleShow, createExampleShow] : List TVShow).length : Int) > 1 →
          ∃ r, SearchTVShows
              { apiKey := goodKey, username := "", password := "", baseURL := "",
                maxResults := 1,
                client := { HostURL := "", Header := [], QueryParam := [], BasicAuth := none,
                            RedirectLimit := 15 } }
              (GoResult.ok [updateExampleShow, createExampleShow]) = GoResult.ok r
            ∧ r = [updateExampleShow, createExampleShow].take (1 : Int).toNat
            ∧ (r.length : Int) = 1
            ∧ r <+: [updateExampleShow, createExampleShow])
        ∧ (¬ ((([updateExampleShow, createExampleShow] : List TVShow).length : Int) > 1) →
          SearchTVShows
              { apiKey := goodKey, username := "", password := "", baseURL := "",
                maxResults := 1,
                client := { HostURL := "", Header := [], QueryParam := [], BasicAuth := none,
                            RedirectLimit := 15 } }
              (GoResult.ok [updateExampleShow, createExampleShow])
            = GoResult.ok [updateExampleShow, createExampleShow])) :=
  ⟨by decide, by decide,
    C7_search_truncates
      { apiKey := goodKey, username := "", password := "", baseURL := "", maxResults := 1,
        client := { HostURL := "", Header := [], QueryParam := [], BasicAuth := none,
                    RedirectLimit := 15 } }
      [updateExampleShow, createExampleShow] (by decide)⟩

/-! ## The hostname of the base URL -/

theorem string_data_literal_http : "http://".data = ['h', 't', 't', 'p', ':', '/', '/'] := rfl

theorem string_data_literal_https :
    "https://".data = ['h', 't', 't', 'p', 's', ':', '/', '/'] := rfl

theorem TrimPrefix_unchanged (s pre : String) (h : HasPrefix s pre = false) :
    TrimPrefix s pre = s := by
  simp [TrimPrefix, h]

theorem TrimPrefix_append (pre s : String) : TrimPrefix (pre ++ s) pre = s := by
  have hp : HasPrefix (pre ++ s) pre = true := by
    simp [HasPrefix, String.data_append]
  simp [TrimPrefix, hp, String.data_append]

theorem HasPrefix_https_http (h : String) : HasPrefix ("https://" ++ h) "http://" = false := by
  simp [HasPrefix, String.data_append, string_data_literal_http, string_data_literal_https,
    List.isPrefixOf]

/-- C10, the claim at two accepted configurations: the hostname `http://` is not
empty, the client is built, and the hostname left for the URL is empty; the hostname
`https://http://example.com` leaves `http://example.com`, which begins with a scheme. -/
theorem C10_scheme_only_hostname_accepted :
    (∃ cl, NewClient { exampleConfig with Hostname := "http://" } = GoResult.ok cl)
      ∧ strippedHostname { exampleConfig with Hostname := "http://" } = ""
      ∧ (∃ cl, NewClient { exampleConfig with Hostname := "https://http://example.com" }
          = GoResult.ok cl)
      ∧ strippedHostname { exampleConfig with Hostname := "https://http://example.com" }
          = "http://example.com"
      ∧ HasPrefix "http://example.com" "http://" = true :=
  ⟨⟨_, rfl⟩, by decide, ⟨_, rfl⟩, by decide, by decide⟩

theorem HasPrefix_split (s pre : String) (h : HasPrefix s pre = true) :
    s = pre ++ TrimPrefix s pre := by
  have hp : pre.data <+: s.data := List.isPrefixOf_iff_prefix.mp h
  obtain ⟨t, ht⟩ := hp
  apply String.ext
  simp only [TrimPrefix, h, if_true, String.data_append]
  rw [← ht]
  simp

theorem NewClient_baseURL (c : Config) (cl : Client) (hcl : NewClient c = GoResult.ok cl) :
    cl.baseURL = createApiURL c := by
  unfold NewClient at hcl
  split at hcl
  · simp at hcl
  · split at hcl
    · simp at hcl
    · simp only [GoResult.ok.injEq] at hcl
      rw [← hcl]

theorem strippedHostname_of_form (c : Config) (h : String)
    (h1 : HasPrefix h "http://" = false) (h2 : HasPrefix h "https://" = false)
    (hc : c.Hostname = h ∨ c.Hostname = "http://" ++ h ∨ c.Hostname = "https://" ++ h
      ∨ c.Hostname = "http://https://" ++ h) :
    strippedHostname c = h := by
  unfold strippedHostname
  rcases hc with hc | hc | hc | hc
  · rw [hc, TrimPrefix_unchanged h _ h1, TrimPrefix_unchanged h _ h2]
  · rw [hc, TrimPrefix_append, TrimPrefix_unchanged h _ h2]
  · rw [hc, TrimPrefix_unchanged _ _ (HasPrefix_https_http h), TrimPrefix_append]
  · have hlit : ("http://https://" : String) = "http://" ++ "https://" := by decide
    rw [hc, hlit, String.append_assoc, TrimPrefix_append, TrimPrefix_append]

theorem hostname_form_of_stripped (c : Config) :
    c.Hostname = strippedHostname c ∨ c.Hostname = "http://" ++ strippedHostname c
      ∨ c.Hostname = "https://" ++ strippedHostname c
      ∨ c.Hostname = "http://https://" ++ strippedHostname c := by
  have hlit : ("http://https://" : String) = "http://" ++ "https://" := by decide
  unfold strippedHostname
  cases h1 : HasPrefix c.Hostname "http://" with
  | true =>
    have e1 := HasPrefix_split c.Hostname "http://" h1
    cases h2 : HasPrefix (TrimPrefix c.Hostname "http://") "https://" with
    | true =>
      have e2 := HasPrefix_split (TrimPrefix c.Hostname "http://") "https://" h2
      right; right; right
      rw [hlit, String.append_assoc, ← e2, ← e1]
    | false =>
      right; left
      rw [TrimPrefix_unchanged _ _ h2, ← e1]
  | false =>
    rw [TrimPrefix_unchanged _ _ h1]
    cases h2 : HasPrefix c.Hostname "https://" with
    | true =>
      right; right; left
      exact HasPrefix_split c.Hostname "https://" h2
    | false =>
      left
      rw [TrimPrefix_unchanged _ _ h2]

/-- C10, amended. For every configuration `NewClient` accepts, the client's base URL
is the one `createApiURL` builds, and the hostname `createApiURL` places in it (the
configured hostname after removal of a leading `http://` and then of a leading
`https://`) is non-empty and begins with neither `http://` nor `https://` exactly
when the configured hostname is `h`, `http://` + `h`, `https://` + `h` or
`http://https://` + `h` for a non-empty `h` that begins with neither scheme; the
hostname placed in the URL is then `h`. -/
theorem C10_stripped_hostname_clean_iff (c : Config)
    (hacc : ∃ cl, NewClient c = GoResult.ok cl) :
    (∃ cl, NewClient c = GoResult.ok cl ∧ cl.baseURL = createApiURL c)
      ∧ ((strippedHostname c ≠ ""
            ∧ HasPrefix (strippedHostname c) "http://" = false
            ∧ HasPrefix (strippedHostname c) "https://" = false)
          ↔ ∃ h : String, h ≠ "" ∧ HasPrefix h "http://" = false
              ∧ HasPrefix h "https://" = false
              ∧ (c.Hostname = h ∨ c.Hostname = "http://" ++ h ∨ c.Hostname = "https://" ++ h
                  ∨ c.Hostname = "http://https://" ++ h))
      ∧ (∀ h : String, h ≠ "" → HasPrefix h "http://" = false →
          HasPrefix h "https://" = false →
          (c.Hostname = h ∨ c.Hostname = "http://" ++ h ∨ c.Hostname = "https://" ++ h
            ∨ c.Hostname = "http://https://" ++ h) →
          strippedHostname c = h ∧ strippedHostname c ≠ ""
            ∧ HasPrefix (strippedHostname c) "http://" = false
            ∧ HasPrefix (strippedHostname c) "https://" = false) := by
  have hall : ∀ h : String, h ≠ "" → HasPrefix h "http://" = false →
      HasPrefix h "https://" = false →
      (c.Hostname = h ∨ c.Hostname = "http://" ++ h ∨ c.Hostname = "https://" ++ h
        ∨ c.Hostname = "http://https://" ++ h) →
      strippedHostname c = h ∧ strippedHostname c ≠ ""
        ∧ HasPrefix (strippedHostname c) "http://" = false
        ∧ HasPrefix (strippedHostname c) "https://" = false := by
    intro h hne h1 h2 hc
    have hstrip := strippedHostname_of_form c h h1 h2 hc
    exact ⟨hstrip, by rw [hstrip]; exact hne, by rw [hstrip]; exact h1,
      by rw [hstrip]; exact h2⟩
  refine ⟨?_, ⟨?_, ?_⟩, hall⟩
  · obtain ⟨cl, hcl⟩ := hacc
    exact ⟨cl, hcl, NewClient_baseURL c cl hcl⟩
  · rintro ⟨hne, h1, h2⟩
    exact ⟨strippedHostname c, hne, h1, h2, hostname_form_of_stripped c⟩
  · rintro ⟨h, hne, h1, h2, hc⟩
    exact (hall h hne h1 h2 hc).2

/-- C10 amended, at the accepted hostname `http://https://example.com`, which leaves
`example.com`. -/
theorem C10_stripped_hostname_clean_iff_witness :
    (∃ cl, NewClient { exampleConfig with Hostname := "http://https://example.com" }
        = GoResult.ok cl)
      ∧ strippedHostname { exampleConfig with Hostname := "http://https://example.com" }
          = "example.com"
      ∧ ((∃ cl, NewClient { exampleConfig with Hostname := "http://https://example.com" }
              = GoResult.ok cl
            ∧ cl.baseURL
              = createApiURL { exampleConfig with Hostname := "http://https://example.com" })
        ∧ ((strippedHostname { exampleConfig with Hostname := "http://https://example.com" }
                ≠ ""
              ∧ HasPrefix
                  (strippedHostname
                    { exampleConfig with Hostname := "http://https://example.com" })
                  "http://" = false
              ∧ HasPrefix
                  (strippedHostname
                    { exampleConfig with Hostname := "http://https://example.com" })
                  "https://" = false)
            ↔ ∃ h : String, h ≠ "" ∧ HasPrefix h "http://" = false
                ∧ HasPrefix h "https://" = false
                ∧ (({ exampleConfig with Hostname := "http://https://example.com" }
                      : Config).Hostname = h
                  ∨ ({ exampleConfig with Hostname := "http://https://example.com" }
                      : Config).Hostname = "http://" ++ h
                  ∨ ({ exampleConfig with Hostname := "http://https://example.com" }
                      : Config).Hostname = "https://" ++ h
                  ∨ ({ exampleConfig with Hostname := "http://https://example.com" }
                      : Config).Hostname = "http://https://" ++ h))
        ∧ (∀ h : String, h ≠ "" → HasPrefix h "http://" = false →
            HasPrefix h "https://" = false →
            (({ exampleConfig with Hostname := "http://https://example.com" }
                  : Config).Hostname = h
              ∨ ({ exampleConfig with Hostname := "http://https://example.com" }
                  : Config).Hostname = "http://" ++ h
              ∨ ({ exampleConfig with Hostname := "http://https://example.com" }
                  : Config).Hostname = "https://" ++ h
              ∨ ({ exampleConfig with Hostname := "http://https://example.com" }
                  : Config).Hostname = "http://https://" ++ h) →
            strippedHostname { exampleConfig with Hostname := "http://https://example.com" }
                = h
              ∧ strippedHostname
                  { exampleConfig with Hostname := "http://https://example.com" } ≠ ""
              ∧ HasPrefix
                  (strippedHostname
                    { exampleConfig with Hostname := "http://https://example.com" })
                  "http://" = false
              ∧ HasPrefix
                  (strippedHostname
                    { exampleConfig with Hostname := "http://https://example.com" })
                  "https://" = false)) :=
  ⟨⟨_, rfl⟩, by decide,
    C10_stripped_hostname_clean_iff
      { exampleConfig with Hostname := "http://https://example.com" } ⟨_, rfl⟩⟩

/-! ## createApiURL -/

theorem escapeChar_of_clean (mode : encoding) (ch : Char)
    (h : (decide (ch.toNat < 128) && !shouldEscape ch mode) = true) :
    escapeChar mode ch = [ch] := by
  simp only [Bool.and_eq_true, decide_eq_true_eq, Bool.not_eq_true'] at h
  simp [escapeChar, h.1, h.2]

theorem flatMap_escapeChar_of_clean (mode : encoding) (l : List Char)
    (h : l.all (fun ch => decide (ch.toNat < 128) && !shouldEscape ch mode) = true) :
    l.flatMap (escapeChar mode) = l := by
  induction l with
  | nil => rfl
  | cons ch rest ih =>
    simp only [List.all_cons, Bool.and_eq_true] at h
    rw [List.flatMap_cons, escapeChar_of_clean mode ch (by simpa using h.1), ih h.2]
    rfl

theorem escape_of_clean (s : String) (mode : encoding) (h : needsNoEscaping s mode = true) :
    escape s mode = s := by
  unfold escape
  rw [flatMap_escapeChar_of_clean mode s.data h]

theorem needsNoEscaping_append (s t : String) (mode : encoding)
    (hs : needsNoEscaping s mode = true) (ht : needsNoEscaping t mode = true) :
    needsNoEscaping (s ++ t) mode = true := by
  unfold needsNoEscaping at *
  rw [String.data_append, List.all_append, hs, ht]
  rfl

theorem digitChar_isDigit (d : Nat) (h : d < 10) :
    48 ≤ (Nat.digitChar d).toNat ∧ (Nat.digitChar d).toNat ≤ 57 := by
  interval_cases d <;> decide

theorem toDigitsCore_digits (fuel : Nat) :
    ∀ (n : Nat) (ds : List Char),
      (∀ ch ∈ ds, 48 ≤ ch.toNat ∧ ch.toNat ≤ 57) →
      ∀ ch ∈ Nat.toDigitsCore 10 fuel n ds, 48 ≤ ch.toNat ∧ ch.toNat ≤ 57 := by
  induction fuel with
  | zero => intro n ds hds ch hch; exact hds ch (by simpa [Nat.toDigitsCore] using hch)
  | succ fuel ih =>
    intro n ds hds ch hch
    have hcons : ∀ x ∈ Nat.digitChar (n % 10) :: ds, 48 ≤ x.toNat ∧ x.toNat ≤ 57 := by
      intro x hx
      rcases List.mem_cons.mp hx with rfl | hx
      · exact digitChar_isDigit _ (Nat.mod_lt _ (by decide))
      · exact hds x hx
    simp only [Nat.toDigitsCore] at hch
    split at hch
    · exact hcons ch hch
    · exact ih _ _ hcons ch hch

theorem toDigits_digits (n : Nat) :
    ∀ ch ∈ Nat.toDigits 10 n, 48 ≤ ch.toNat ∧ ch.toNat ≤ 57 :=
  toDigitsCore_digits (n + 1) n [] (by simp)

theorem digit_clean_host (ch : Char) (h : 48 ≤ ch.toNat ∧ ch.toNat ≤ 57) :
    (decide (ch.toNat < 128) && !shouldEscape ch encoding.encodeHost) = true := by
  have h1 : ch.toNat < 128 := by omega
  simp [shouldEscape, h.1, h.2, h1]

theorem formatInt_clean (n : Int) : needsNoEscaping (formatInt n) encoding.encodeHost = true := by
  unfold needsNoEscaping
  rw [List.all_eq_true]
  intro ch hch
  cases n with
  | ofNat k => exact digit_clean_host ch (toDigits_digits k ch hch)
  | negSucc k =>
    simp only [formatInt] at hch
    rcases List.mem_cons.mp hch with rfl | hch
    · decide
    · exact digit_clean_host ch (toDigits_digits (k + 1) ch hch)

theorem string_append_ne_empty_left (s t : String) (h : s ≠ "") : s ++ t ≠ "" := by
  intro hst
  apply h
  have hd : (s ++ t).data = [] := by rw [hst]
  rw [String.data_append] at hd
  exact String.ext (by simpa using (List.append_eq_nil.mp hd).1)

theorem urlString_clean (u : URL) (hs : u.Scheme ≠ "") (hp : u.Path ≠ "")
    (hstar : u.Path ≠ "*") (hh : needsNoEscaping u.Host encoding.encodeHost = true)
    (hpath : needsNoEscaping u.Path encoding.encodePath = true) :
    urlString u
      = u.Scheme ++ ":" ++ "//" ++ u.Host
          ++ (if u.Path.data.head? ≠ some '/' ∧ u.Host ≠ "" then "/" else "") ++ u.Path := by
  have hbuf : ∀ t : String, u.Scheme ++ ":" ++ "//" ++ t ≠ "" := by
    intro t
    rw [String.append_assoc, String.append_assoc]
    exact string_append_ne_empty_left _ _ hs
  unfold urlString EscapedPath
  simp only [hs, hp, hstar, ne_eq, not_false_eq_true, if_true, if_false, true_or, or_true,
    escape_of_clean _ _ hh, escape_of_clean _ _ hpath, true_and]
  by_cases hhost : u.Host = ""
  · simp only [hhost, not_true_eq_false, if_false, and_false, String.append_empty]
    have := hbuf ""
    simp only [String.append_empty] at this
    simp only [this, false_and, if_false]
  · simp only [hhost, not_false_eq_true, if_true, and_true]
    by_cases hhead : u.Path.data.head? = some '/'
    · simp only [hhead, not_true_eq_false, if_false, String.append_empty]
      simp only [hbuf u.Host, false_and, if_false]
    · simp only [hhead, not_false_eq_true, if_true]
      have := string_append_ne_empty_left _ "/" (hbuf u.Host)
      simp only [this, false_and, if_false]

theorem head_ne_slash (s : String) (hne : s ≠ "")
    (h : HasPrefix s "/" = false) : s.data.head? ≠ some '/' := by
  have hlit : "/".data = ['/'] := rfl
  unfold HasPrefix at h
  rw [hlit] at h
  rcases hd : s.data with _ | ⟨x, rest⟩
  · exact absurd (String.ext (by simpa using hd)) hne
  · rw [hd] at h
    simp only [List.isPrefixOf, List.isPrefixOf_nil_left, Bool.and_true, beq_eq_false_iff_ne,
      ne_eq] at h
    simp only [List.head?_cons, ne_eq, Option.some.injEq]
    exact fun hx => h hx.symm

theorem createApiURL_format_of_host (c : Config)
    (hs1 : HasPrefix c.Hostname "http://" = false)
    (hs2 : HasPrefix c.Hostname "https://" = false)
    (hb : HasPrefix c.URLBase "/" = false)
    (hhost : needsNoEscaping c.Hostname encoding.encodeHost = true)
    (hbase : needsNoEscaping c.URLBase encoding.encodePath = true)
    (hdeg : c.Hostname ≠ "" ∨ c.Port ≠ 80 ∨ c.URLBase = "") :
    createApiURL c
      = (if c.SSL = true then "https" else "http") ++ "://"
          ++ (if c.Port = 80 then c.Hostname else c.Hostname ++ ":" ++ formatInt c.Port)
          ++ "/" ++ (if c.URLBase ≠ "" then c.URLBase ++ "/api" else "api") := by
  have hscheme : (if c.SSL = true then "https" else "http") ≠ "" := by
    cases c.SSL <;> decide
  have hcleanHost : needsNoEscaping
      (if c.Port = 80 then c.Hostname else c.Hostname ++ ":" ++ formatInt c.Port)
      encoding.encodeHost = true := by
    split
    · exact hhost
    · exact needsNoEscaping_append _ _ _
        (needsNoEscaping_append _ _ _ hhost (by decide)) (formatInt_clean c.Port)
  have hhostne : c.URLBase ≠ "" →
      (if c.Port = 80 then c.Hostname else c.Hostname ++ ":" ++ formatInt c.Port) ≠ "" := by
    intro hbne
    split
    · next hport =>
      rcases hdeg with h | h | h
      · exact h
      · exact absurd hport h
      · exact absurd h hbne
    · rw [String.append_assoc]
      intro habs
      have hd : (c.Hostname ++ (":" ++ formatInt c.Port)).data = [] := by rw [habs]
      rw [String.data_append, String.data_append] at hd
      have hcolon : ":".data = [':'] := rfl
      rw [hcolon] at hd
      simp at hd
  unfold createApiURL strippedHostname
  simp only [TrimPrefix_unchanged _ _ hs1, TrimPrefix_unchanged _ _ hs2,
    TrimPrefix_unchanged _ _ hb]
  by_cases hbne : c.URLBase = ""
  · simp only [hbne, ne_eq, not_true_eq_false, if_false]
    rw [urlString_clean
      { Scheme := if c.SSL = true then "https" else "http"
        Host := if c.Port = 80 then c.Hostname else c.Hostname ++ ":" ++ formatInt c.Port
        Path := "/api" }
      hscheme (show ("/api" : String) ≠ "" by decide) (show ("/api" : String) ≠ "*" by decide)
      hcleanHost (show needsNoEscaping "/api" encoding.encodePath = true by decide)]
    have hhead : ("/api" : String).data.head? = some '/' := rfl
    simp only [hhead, ne_eq, not_true_eq_false, false_and, if_false, String.append_empty]
    have hlit : ("/api" : String) = "/" ++ "api" := by decide
    have hsep : ("://" : String) = ":" ++ "//" := by decide
    rw [hlit, hsep]
    simp only [String.append_assoc]
  · have hpne : c.URLBase ++ "/api" ≠ "" := string_append_ne_empty_left _ _ hbne
    have hpstar : c.URLBase ++ "/api" ≠ "*" := by
      intro habs
      have hl : (c.URLBase ++ "/api").data.length = ("*" : String).data.length := by rw [habs]
      rw [String.data_append, List.length_append] at hl
      have h4 : ("/api" : String).data.length = 4 := rfl
      have h1 : ("*" : String).data.length = 1 := rfl
      omega
    have hpclean : needsNoEscaping (c.URLBase ++ "/api") encoding.encodePath = true :=
      needsNoEscaping_append _ _ _ hbase (by decide)
    have hhead : (c.URLBase ++ "/api").data.head? ≠ some '/' := by
      have h0 := head_ne_slash c.URLBase hbne hb
      rw [String.data_append]
      rcases hd : c.URLBase.data with _ | ⟨x, rest⟩
      · exact absurd (String.ext (by simpa using hd)) hbne
      · rw [hd] at h0
        simpa using h0
    simp only [hbne, ne_eq, not_false_eq_true, if_true]
    rw [urlString_clean
      { Scheme := if c.SSL = true then "https" else "http"
        Host := if c.Port = 80 then c.Hostname else c.Hostname ++ ":" ++ formatInt c.Port
        Path := c.URLBase ++ "/api" }
      hscheme hpne hpstar hcleanHost hpclean]
    simp only [hhead, hhostne hbne, ne_eq, not_false_eq_true, and_self, if_true]
    have hsep : ("://" : String) = ":" ++ "//" := by decide
    rw [hsep]
    simp only [String.append_assoc]

/-- C6. For every configuration with a non-empty hostname (the guard of `NewClient`,
the one caller, lets no other reach `createApiURL`) whose hostname carries no scheme
and whose URL prefix carries no leading slash, neither holding a character that needs
escaping: `createApiURL` returns scheme, `://`, host, `/`, path, with scheme `https`
exactly when the TLS flag is set and `http` otherwise, host the bare hostname for port
80 and `hostname:port` for every other port, and path `<prefix>/api` for a non-empty
prefix and `api` otherwise; this is the base URL of every client `NewClient` returns
for such a configuration. -/
theorem C6_createApiURL_format (c : Config)
    (hne : c.Hostname ≠ "")
    (hs1 : HasPrefix c.Hostname "http://" = false)
    (hs2 : HasPrefix c.Hostname "https://" = false)
    (hb : HasPrefix c.URLBase "/" = false)
    (hhost : needsNoEscaping c.Hostname encoding.encodeHost = true)
    (hbase : needsNoEscaping c.URLBase encoding.encodePath = true) :
    createApiURL c
        = (if c.SSL = true then "https" else "http") ++ "://"
            ++ (if c.Port = 80 then c.Hostname else c.Hostname ++ ":" ++ formatInt c.Port)
            ++ "/" ++ (if c.URLBase ≠ "" then c.URLBase ++ "/api" else "api")
      ∧ ∀ cl, NewClient c = GoResult.ok cl →
          cl.baseURL
            = (if c.SSL = true then "https" else "http") ++ "://"
                ++ (if c.Port = 80 then c.Hostname else c.Hostname ++ ":" ++ formatInt c.Port)
                ++ "/" ++ (if c.URLBase ≠ "" then c.URLBase ++ "/api" else "api") := by
  have hfmt := createApiURL_format_of_host c hs1 hs2 hb hhost hbase (Or.inl hne)
  refine ⟨hfmt, ?_⟩
  intro cl hcl
  rw [NewClient_baseURL c cl hcl, hfmt]

/-- C6, at the two examples of the spec: `(example.com, 80, TLS off, "")` gives
`http://example.com/api` and `(example.com, 8989, TLS on, "sonarr")` gives
`https://example.com:8989/sonarr/api`; port 443 is written out. -/
theorem C6_createApiURL_format_witness :
    createApiURL { exampleConfig with Port := 80, SSL := false, URLBase := "" }
        = "http://example.com/api"
      ∧ createApiURL exampleConfig = "https://example.com:8989/sonarr/api"
      ∧ createApiURL { exampleConfig with Port := 443 } = "https://example.com:443/sonarr/api"
      ∧ exampleConfig.Hostname ≠ ""
      ∧ HasPrefix exampleConfig.Hostname "http://" = false
      ∧ HasPrefix exampleConfig.Hostname "https://" = false
      ∧ HasPrefix exampleConfig.URLBase "/" = false
      ∧ needsNoEscaping exampleConfig.Hostname encoding.encodeHost = true
      ∧ needsNoEscaping exampleConfig.URLBase encoding.encodePath = true
      ∧ (createApiURL exampleConfig
          = (if exampleConfig.SSL = true then "https" else "http") ++ "://"
              ++ (if exampleConfig.Port = 80 then exampleConfig.Hostname
                  else exampleConfig.Hostname ++ ":" ++ formatInt exampleConfig.Port)
              ++ "/" ++ (if exampleConfig.URLBase ≠ "" then exampleConfig.URLBase ++ "/api"
                         else "api")
        ∧ ∀ cl, NewClient exampleConfig = GoResult.ok cl →
            cl.baseURL
              = (if exampleConfig.SSL = true then "https" else "http") ++ "://"
                  ++ (if exampleConfig.Port = 80 then exampleConfig.Hostname
                      else exampleConfig.Hostname ++ ":" ++ formatInt exampleConfig.Port)
                  ++ "/" ++ (if exampleConfig.URLBase ≠ "" then exampleConfig.URLBase ++ "/api"
                             else "api")) :=
  ⟨by decide, by decide, by decide, by decide, by decide, by decide, by decide, by decide,
    by decide,
    C6_createApiURL_format exampleConfig (by decide) (by decide) (by decide) (by decide)
      (by decide) (by decide)⟩

end Sonarr
